import Mathlib

/-!
Shallow embedding of the charity donation transaction engine
(`db/sqlc` store layer and the `api` donation handlers of
kholodihor/charity-new), together with proofs settling the claims
about its specification.

The relational store is modelled as lists of rows; each sqlc query is a
pure Lean function mirroring the SQL in `db/query/*.sql`, and the
transaction `DonateToGoalTx` (the balance-enforcing variant, the one the
specification follows) is a function threading the store state, wrapped
in `execTx` semantics: commit on success, roll back (return the original
state) on error.  Machine `int64` values are modelled as unbounded `Int`:
no claim here is about overflow behaviour.
-/

namespace Charity

/-- `pgtype.Int8`: a nullable 64-bit integer (`Valid = false` means SQL NULL). -/
structure PgInt8 where
  int64 : Int
  valid : Bool
deriving Repr, DecidableEq

/-- A row of the `users` table. -/
structure User where
  id : Int
  email : String
  name : String
  balance : Int
deriving Repr, DecidableEq

/-- A row of the `goals` table. -/
structure Goal where
  id : Int
  title : String
  description : String
  targetAmount : Int
  collectedAmount : Int
  isActive : Bool
deriving Repr, DecidableEq

/-- A row of the `donations` table (`user_id` is nullable). -/
structure Donation where
  id : Int
  userID : PgInt8
  goalID : Int
  amount : Int
  isAnonymous : Bool
  createdAt : Int
deriving Repr, DecidableEq

/-- The database state: the three tables the engine touches, plus the
serial-id counter and clock supplying server-assigned donation ids and
timestamps. -/
structure DBState where
  users : List User
  goals : List Goal
  donations : List Donation
  nextDonationID : Int
  clock : Int
deriving Repr, DecidableEq

/-- `GetUser`: `SELECT * FROM users WHERE id = $1 LIMIT 1` (none = no rows). -/
def getUser (s : DBState) (id : Int) : Option User :=
  s.users.find? (fun u => u.id == id)

/-- `GetGoal`: `SELECT * FROM goals WHERE id = $1 LIMIT 1` (none = no rows). -/
def getGoal (s : DBState) (id : Int) : Option Goal :=
  s.goals.find? (fun g => g.id == id)

/-- Parameters of the `CreateDonation` query. -/
structure CreateDonationParams where
  userID : PgInt8
  goalID : Int
  amount : Int
  isAnonymous : Bool
deriving Repr, DecidableEq

/-- `CreateDonation`: `INSERT INTO donations (goal_id, user_id, amount,
is_anonymous) VALUES ($1,$2,$3,$4) RETURNING *`; the id and timestamp are
server-assigned. -/
def createDonation (s : DBState) (p : CreateDonationParams) : DBState × Donation :=
  let d : Donation :=
    { id := s.nextDonationID
      userID := p.userID
      goalID := p.goalID
      amount := p.amount
      isAnonymous := p.isAnonymous
      createdAt := s.clock }
  ({ s with donations := s.donations ++ [d], nextDonationID := s.nextDonationID + 1 }, d)

/-- Parameters of the `UpdateUserBalance` query; sqlc names `$2` after the
`balance` column it is added to. -/
structure UpdateUserBalanceParams where
  id : Int
  balance : Int
deriving Repr, DecidableEq

/-- The row transformation of `UpdateUserBalance`:
`SET balance = balance + $2` applied to the rows matching `id = $1`. -/
def addUserBalance (id delta : Int) (u : User) : User :=
  if u.id == id then { u with balance := u.balance + delta } else u

/-- `UpdateUserBalance`: `UPDATE users SET balance = balance + $2 WHERE
id = $1 RETURNING *` — note the SQL ADDS `$2` to the stored balance.
Returns the updated matching row (none = no row updated, an error in Go). -/
def updateUserBalance (s : DBState) (p : UpdateUserBalanceParams) :
    DBState × Option User :=
  let s' := { s with users := s.users.map (addUserBalance p.id p.balance) }
  (s', getUser s' p.id)

/-- Parameters of the `UpdateGoalCollectedAmount` query; sqlc names `$2`
after the `collected_amount` column it is added to. -/
structure UpdateGoalCollectedAmountParams where
  id : Int
  collectedAmount : Int
deriving Repr, DecidableEq

/-- The row transformation of `UpdateGoalCollectedAmount`:
`SET collected_amount = collected_amount + $2` on rows matching `id = $1`. -/
def addGoalAmount (id delta : Int) (g : Goal) : Goal :=
  if g.id == id then { g with collectedAmount := g.collectedAmount + delta } else g

/-- `UpdateGoalCollectedAmount`: `UPDATE goals SET collected_amount =
collected_amount + $2 WHERE id = $1` (`:exec`, returns no row). -/
def updateGoalCollectedAmount (s : DBState) (p : UpdateGoalCollectedAmountParams) :
    DBState :=
  { s with goals := s.goals.map (addGoalAmount p.id p.collectedAmount) }

/-- The failure kinds of `DonateToGoalTx`, one per distinct error source in
the Go code: the three `errors.New` messages, the two "no rows" lookup
failures, and `storeError` for any other query failure surfaced through
`execTx`. -/
inductive TxError
  /-- "donation amount must be positive" -/
  | invalidAmount
  /-- `GetGoal` returned no rows -/
  | goalNotFound
  /-- "cannot donate to inactive goal" -/
  | goalInactive
  /-- `GetUser` returned no rows -/
  | userNotFound
  /-- "insufficient balance" -/
  | insufficientBalance
  /-- any other query failure inside the transaction -/
  | storeError
deriving Repr, DecidableEq

/-- Input parameters of the donation transaction. -/
structure DonateToGoalTxParams where
  userID : PgInt8
  goalID : Int
  amount : Int
  isAnonymous : Bool
deriving Repr, DecidableEq

/-- Result of the donation transaction.  `user = none` models the Go
zero-valued `User{}` left in the result when the donation carries no user
id (the balance branch is skipped). -/
structure DonateToGoalTxResult where
  donation : Donation
  user : Option User
  goal : Goal
  fromBalance : Int
  toBalance : Int
deriving Repr, DecidableEq

/-- Steps shared by both branches of the transaction body: create the
donation row, add the amount to the goal's collected amount, and re-read
the goal for the result snapshot. -/
def finishDonation (s1 : DBState) (arg : DonateToGoalTxParams)
    (uOpt : Option User) (fromBal toBal : Int) :
    Except TxError (DBState × DonateToGoalTxResult) :=
  let step := createDonation s1
    { userID := arg.userID
      goalID := arg.goalID
      amount := arg.amount
      isAnonymous := arg.isAnonymous }
  let s3 := updateGoalCollectedAmount step.1
    { id := arg.goalID, collectedAmount := arg.amount }
  match getGoal s3 arg.goalID with
  | none => .error .storeError
  | some updatedGoal =>
      .ok (s3,
        { donation := step.2
          user := uOpt
          goal := updatedGoal
          fromBalance := fromBal
          toBalance := toBal })

/-- The closure passed to `execTx` by `DonateToGoalTx` (balance-enforcing
variant): validate the amount, fetch the goal and check it is active,
then — only when a user id is supplied — check the balance and update it,
and finally create the donation and bump the goal's collected amount. -/
def donateToGoalTxBody (s0 : DBState) (arg : DonateToGoalTxParams) :
    Except TxError (DBState × DonateToGoalTxResult) :=
  if arg.amount ≤ 0 then .error .invalidAmount
  else
    match getGoal s0 arg.goalID with
    | none => .error .goalNotFound
    | some goal =>
      if !goal.isActive then .error .goalInactive
      else
        if arg.userID.valid then
          match getUser s0 arg.userID.int64 with
          | none => .error .userNotFound
          | some user =>
            if user.balance < arg.amount then .error .insufficientBalance
            else
              -- newBalance := user.Balance - arg.Amount, passed as the
              -- `balance` parameter of UpdateUserBalance
              let step := updateUserBalance s0
                { id := arg.userID.int64, balance := user.balance - arg.amount }
              match step.2 with
              | none => .error .storeError
              | some updatedUser =>
                  finishDonation step.1 arg (some updatedUser) user.balance updatedUser.balance
        else
          finishDonation s0 arg none 0 0

/-- `DonateToGoalTx` = `execTx` applied to the body: on success the
mutated state is committed; on any error the transaction is rolled back
and the caller observes the original state together with the error. -/
def donateToGoalTx (s : DBState) (arg : DonateToGoalTxParams) :
    DBState × Except TxError DonateToGoalTxResult :=
  match donateToGoalTxBody s arg with
  | .error e => (s, .error e)
  | .ok (s', r) => (s', .ok r)

/-- Whether a transaction outcome is a success. -/
def txOk : Except TxError DonateToGoalTxResult → Bool
  | .ok _ => true
  | .error _ => false

/-! ### API layer (`api/donation.go`): response shaping and the two
donation endpoints, including the configured per-type amount ceilings. -/

/-- The donation-limit configuration (`util.Config`, amounts in cents). -/
structure Config where
  maxAnonymousDonation : Int
  maxRegisteredDonation : Int
deriving Repr, DecidableEq

/-- Body of `POST /donations` (`binding:"required"` on goal_id,
`binding:"required,min=1"` on amount). -/
structure CreateDonationRequest where
  goalID : Int
  amount : Int
  isAnonymous : Bool
deriving Repr, DecidableEq

/-- Body of `POST /donations/anonymous`. -/
structure CreateAnonymousDonationRequest where
  goalID : Int
  amount : Int
deriving Repr, DecidableEq

/-- `ShouldBindJSON` validation of a `createDonationRequest`: `required`
rejects the zero value, `min=1` rejects amounts below 1. -/
def bindCreateDonation (req : CreateDonationRequest) : Bool :=
  req.goalID != 0 && req.amount >= 1

/-- `ShouldBindJSON` validation of a `createAnonymousDonationRequest`. -/
def bindCreateAnonymousDonation (req : CreateAnonymousDonationRequest) : Bool :=
  req.goalID != 0 && req.amount >= 1

/-- The public JSON view of a donation (`donationResponse`); `userID =
none` models the `user_id,omitempty` field being absent from the JSON.
`createdAt` carries the timestamp whose formatted text is rendered. -/
structure DonationResponse where
  id : Int
  userID : Option Int
  goalID : Int
  amount : Int
  isAnonymous : Bool
  createdAt : Int
deriving Repr, DecidableEq

/-- `newDonationResponse`: the user id is included exactly when the stored
`user_id` is non-NULL AND the donation is not anonymous. -/
def newDonationResponse (d : Donation) : DonationResponse :=
  { id := d.id
    userID := if d.userID.valid && !d.isAnonymous then some d.userID.int64 else none
    goalID := d.goalID
    amount := d.amount
    isAnonymous := d.isAnonymous
    createdAt := d.createdAt }

/-- The HTTP outcomes the donation handlers can produce. -/
inductive HandlerOutcome
  /-- 400: request binding failed -/
  | badRequest
  /-- 400: "donation amount exceeds maximum limit" with the configured max -/
  | limitExceeded (maxAmount : Int)
  /-- 404: "goal not found" -/
  | goalMissing
  /-- 500: store/transaction error -/
  | internalError
  /-- 201: created, with the rendered donation -/
  | created (resp : DonationResponse)
deriving Repr, DecidableEq

/-- The `DonateToGoalTxParams` that `createDonation` builds: the user id
comes from the verified token payload (`authPayload.UserID`), never from
the request body, and the anonymity flag is the caller's choice. -/
def regParams (authUserID : Int) (req : CreateDonationRequest) :
    DonateToGoalTxParams :=
  { goalID := req.goalID
    userID := { int64 := authUserID, valid := true }
    amount := req.amount
    isAnonymous := req.isAnonymous }

/-- The `DonateToGoalTxParams` that `createAnonymousDonation` builds: no
user id and `IsAnonymous: true`, always. -/
def anonParams (req : CreateAnonymousDonationRequest) : DonateToGoalTxParams :=
  { goalID := req.goalID
    userID := { int64 := 0, valid := false }
    amount := req.amount
    isAnonymous := true }

/-- `POST /donations` handler (`createDonation` in `api`): bind the
request, take the user id from the verified token payload, reject amounts
over `MaxRegisteredDonation`, check the goal exists, then run the
transaction with `UserID = {Int64: authPayload.UserID, Valid: true}`. -/
def createDonationHandler (cfg : Config) (authUserID : Int)
    (req : CreateDonationRequest) (s : DBState) : DBState × HandlerOutcome :=
  if !bindCreateDonation req then (s, .badRequest)
  else if cfg.maxRegisteredDonation < req.amount then
    (s, .limitExceeded cfg.maxRegisteredDonation)
  else
    match getGoal s req.goalID with
    | none => (s, .goalMissing)
    | some _ =>
      let out := donateToGoalTx s (regParams authUserID req)
      match out.2 with
      | .error _ => (out.1, .internalError)
      | .ok result => (out.1, .created (newDonationResponse result.donation))

/-- `POST /donations/anonymous` handler (`createAnonymousDonation`): no
authentication, amounts over `MaxAnonymousDonation` rejected, and the
transaction always receives `UserID = {Valid: false}` and
`IsAnonymous: true`. -/
def createAnonymousDonationHandler (cfg : Config)
    (req : CreateAnonymousDonationRequest) (s : DBState) :
    DBState × HandlerOutcome :=
  if !bindCreateAnonymousDonation req then (s, .badRequest)
  else if cfg.maxAnonymousDonation < req.amount then
    (s, .limitExceeded cfg.maxAnonymousDonation)
  else
    match getGoal s req.goalID with
    | none => (s, .goalMissing)
    | some _ =>
      let out := donateToGoalTx s (anonParams req)
      match out.2 with
      | .error _ => (out.1, .internalError)
      | .ok result => (out.1, .created (newDonationResponse result.donation))

/-! ### Sequences of transactions (for the conservation claims) -/

/-- Run a list of donation calls in order, keeping the committed state of
each (`execTx` already discards the state of failed calls). -/
def donateMany (s : DBState) (ps : List DonateToGoalTxParams) : DBState :=
  match ps with
  | [] => s
  | p :: rest => donateMany (donateToGoalTx s p).1 rest

/-- Sum of the amounts of the calls in the sequence that commit
successfully against goal `gid`. -/
def committedSum (s : DBState) (ps : List DonateToGoalTxParams) (gid : Int) : Int :=
  match ps with
  | [] => 0
  | p :: rest =>
    let out := donateToGoalTx s p
    (if txOk out.2 && p.goalID == gid then p.amount else 0) +
      committedSum out.1 rest gid

/-- Whether every call in the sequence commits successfully. -/
def allSucceed (s : DBState) (ps : List DonateToGoalTxParams) : Bool :=
  match ps with
  | [] => true
  | p :: rest =>
    let out := donateToGoalTx s p
    txOk out.2 && allSucceed out.1 rest

/-- The donation row a successful call inserts (ids/timestamps are the
state's counters). -/
def newDonation (s : DBState) (arg : DonateToGoalTxParams) : Donation :=
  { id := s.nextDonationID
    userID := arg.userID
    goalID := arg.goalID
    amount := arg.amount
    isAnonymous := arg.isAnonymous
    createdAt := s.clock }

/-- The committed state of a successful call that skipped the balance
branch: the donation appended and the goal incremented. -/
def txSuccessState (s : DBState) (arg : DonateToGoalTxParams) : DBState :=
  { s with
    goals := s.goals.map (addGoalAmount arg.goalID arg.amount)
    donations := s.donations ++ [newDonation s arg]
    nextDonationID := s.nextDonationID + 1 }

/-- The committed state of a successful attributed call: additionally the
user row received the `balance = balance + $2` update with `$2 = delta`
(the code passes `delta = balance − amount`). -/
def txSuccessStateAttr (s : DBState) (arg : DonateToGoalTxParams) (delta : Int) :
    DBState :=
  { txSuccessState s arg with
    users := s.users.map (addUserBalance arg.userID.int64 delta) }

/-! ### Basic lemmas about the row transformations -/

theorem addGoalAmount_id (gid amt : Int) (g : Goal) :
    (addGoalAmount gid amt g).id = g.id := by
  unfold addGoalAmount
  split <;> rfl

theorem addUserBalance_id (uid delta : Int) (u : User) :
    (addUserBalance uid delta u).id = u.id := by
  unfold addUserBalance
  split <;> rfl

theorem find?_map_pres {α : Type} (f : α → α) (p : α → Bool)
    (hf : ∀ a, p (f a) = p a) (l : List α) :
    (l.map f).find? p = (l.find? p).map f := by
  rw [List.find?_map]
  have hpf : p ∘ f = p := funext hf
  rw [hpf]

theorem getGoal_goals_map (s : DBState) (gid amt qid : Int) :
    getGoal { s with goals := s.goals.map (addGoalAmount gid amt) } qid
      = (getGoal s qid).map (addGoalAmount gid amt) := by
  simp only [getGoal]
  exact find?_map_pres _ _ (fun g => by rw [addGoalAmount_id]) _

theorem getUser_users_map (s : DBState) (uid delta qid : Int) :
    getUser { s with users := s.users.map (addUserBalance uid delta) } qid
      = (getUser s qid).map (addUserBalance uid delta) := by
  simp only [getUser]
  exact find?_map_pres _ _ (fun u => by rw [addUserBalance_id]) _

/-! ### Exact-outcome lemmas for `donateToGoalTx`, one per branch of the
transaction body.  Together they cover every input. -/

theorem tx_invalidAmount (s : DBState) (arg : DonateToGoalTxParams)
    (ha : arg.amount ≤ 0) :
    donateToGoalTx s arg = (s, .error .invalidAmount) := by
  simp [donateToGoalTx, donateToGoalTxBody, ha]

theorem tx_goalNotFound (s : DBState) (arg : DonateToGoalTxParams)
    (ha : 0 < arg.amount) (hg : getGoal s arg.goalID = none) :
    donateToGoalTx s arg = (s, .error .goalNotFound) := by
  rw [donateToGoalTx, donateToGoalTxBody, if_neg (by omega), hg]

theorem tx_goalInactive (s : DBState) (arg : DonateToGoalTxParams) (g : Goal)
    (ha : 0 < arg.amount) (hg : getGoal s arg.goalID = some g)
    (hact : g.isActive = false) :
    donateToGoalTx s arg = (s, .error .goalInactive) := by
  rw [donateToGoalTx, donateToGoalTxBody, if_neg (by omega), hg]
  simp [hact]

theorem tx_userNotFound (s : DBState) (arg : DonateToGoalTxParams) (g : Goal)
    (ha : 0 < arg.amount) (hg : getGoal s arg.goalID = some g)
    (hact : g.isActive = true) (hv : arg.userID.valid = true)
    (hu : getUser s arg.userID.int64 = none) :
    donateToGoalTx s arg = (s, .error .userNotFound) := by
  rw [donateToGoalTx, donateToGoalTxBody, if_neg (by omega), hg]
  simp [hact, hv, hu]

theorem tx_insufficientBalance (s : DBState) (arg : DonateToGoalTxParams)
    (g : Goal) (u : User)
    (ha : 0 < arg.amount) (hg : getGoal s arg.goalID = some g)
    (hact : g.isActive = true) (hv : arg.userID.valid = true)
    (hu : getUser s arg.userID.int64 = some u) (hb : u.balance < arg.amount) :
    donateToGoalTx s arg = (s, .error .insufficientBalance) := by
  rw [donateToGoalTx, donateToGoalTxBody, if_neg (by omega), hg]
  simp [hact, hv, hu, hb]

theorem finishDonation_eq (s1 : DBState) (arg : DonateToGoalTxParams)
    (uOpt : Option User) (fb tb : Int) (g1 : Goal)
    (hg : getGoal s1 arg.goalID = some g1) :
    finishDonation s1 arg uOpt fb tb =
      .ok (txSuccessState s1 arg,
        { donation := newDonation s1 arg
          user := uOpt
          goal := { g1 with collectedAmount := g1.collectedAmount + arg.amount }
          fromBalance := fb
          toBalance := tb }) := by
  have hg' : s1.goals.find? (fun g => g.id == arg.goalID) = some g1 := hg
  have hid : (g1.id == arg.goalID) = true := by
    have h := List.find?_some hg'
    exact h
  have hgoal3 :
      getGoal (updateGoalCollectedAmount
        (createDonation s1
          { userID := arg.userID, goalID := arg.goalID, amount := arg.amount,
            isAnonymous := arg.isAnonymous }).1
        { id := arg.goalID, collectedAmount := arg.amount }) arg.goalID
      = some { g1 with collectedAmount := g1.collectedAmount + arg.amount } := by
    have h1 : getGoal (createDonation s1
        { userID := arg.userID, goalID := arg.goalID, amount := arg.amount,
          isAnonymous := arg.isAnonymous }).1 arg.goalID = some g1 := hg
    rw [updateGoalCollectedAmount]
    rw [show (createDonation s1
        { userID := arg.userID, goalID := arg.goalID, amount := arg.amount,
          isAnonymous := arg.isAnonymous }).1.goals = s1.goals from rfl]
    have := getGoal_goals_map
      { s1 with
        donations := s1.donations ++ [newDonation s1 arg]
        nextDonationID := s1.nextDonationID + 1 } arg.goalID arg.amount arg.goalID
    simp only [getGoal] at this ⊢
    rw [this]
    rw [hg']
    simp [addGoalAmount, hid]
  simp only [finishDonation]
  rw [hgoal3]
  rfl

theorem updateUserBalance_eq (s : DBState) (p : UpdateUserBalanceParams) :
    updateUserBalance s p =
      ({ s with users := s.users.map (addUserBalance p.id p.balance) },
        (getUser s p.id).map (addUserBalance p.id p.balance)) := by
  rw [updateUserBalance, getUser_users_map]

theorem tx_ok_anon (s : DBState) (arg : DonateToGoalTxParams) (g : Goal)
    (ha : 0 < arg.amount) (hg : getGoal s arg.goalID = some g)
    (hact : g.isActive = true) (hv : arg.userID.valid = false) :
    donateToGoalTx s arg =
      (txSuccessState s arg,
        .ok { donation := newDonation s arg
              user := none
              goal := { g with collectedAmount := g.collectedAmount + arg.amount }
              fromBalance := 0
              toBalance := 0 }) := by
  rw [donateToGoalTx, donateToGoalTxBody, if_neg (by omega), hg]
  simp only [hact, hv, Bool.not_true, Bool.false_eq_true, if_false]
  rw [finishDonation_eq s arg none 0 0 g hg]
  simp [hact]

theorem tx_ok_attr (s : DBState) (arg : DonateToGoalTxParams) (g : Goal) (u : User)
    (ha : 0 < arg.amount) (hg : getGoal s arg.goalID = some g)
    (hact : g.isActive = true) (hv : arg.userID.valid = true)
    (hu : getUser s arg.userID.int64 = some u) (hb : ¬ u.balance < arg.amount) :
    donateToGoalTx s arg =
      (txSuccessStateAttr s arg (u.balance - arg.amount),
        .ok { donation := newDonation s arg
              user := some { u with balance := u.balance + (u.balance - arg.amount) }
              goal := { g with collectedAmount := g.collectedAmount + arg.amount }
              fromBalance := u.balance
              toBalance := u.balance + (u.balance - arg.amount) }) := by
  have hu' : s.users.find? (fun x => x.id == arg.userID.int64) = some u := hu
  have huid : (u.id == arg.userID.int64) = true := by
    have h := List.find?_some hu'
    exact h
  have hgstep :
      getGoal
        { s with
          users := s.users.map (addUserBalance arg.userID.int64 (u.balance - arg.amount)) }
        arg.goalID = some g := hg
  rw [donateToGoalTx, donateToGoalTxBody, if_neg (by omega), hg]
  simp only [hact, hv, hu, hb, Bool.not_true, Bool.false_eq_true, if_false, if_true]
  rw [updateUserBalance_eq]
  simp only [hu, Option.map_some']
  rw [show addUserBalance arg.userID.int64 (u.balance - arg.amount) u
      = { u with balance := u.balance + (u.balance - arg.amount) } by
    simp [addUserBalance, huid]]
  rw [finishDonation_eq _ arg _ _ _ g hgstep]
  simp [txSuccessState, txSuccessStateAttr, newDonation, hact]

/-- Rollback: whenever the transaction reports an error, the committed
state is the state before the call (the `execTx` contract). -/
theorem tx_error_frame (s : DBState) (arg : DonateToGoalTxParams) (e : TxError)
    (h : (donateToGoalTx s arg).2 = .error e) :
    (donateToGoalTx s arg).1 = s := by
  cases hb : donateToGoalTxBody s arg with
  | error e' => simp [donateToGoalTx, hb]
  | ok p =>
      obtain ⟨s', r⟩ := p
      rw [donateToGoalTx, hb] at h
      simp at h

/-- The result of a successful attributed call, spelled out. -/
def attrResult (s : DBState) (arg : DonateToGoalTxParams) (g : Goal) (u : User) :
    DonateToGoalTxResult :=
  { donation := newDonation s arg
    user := some { u with balance := u.balance + (u.balance - arg.amount) }
    goal := { g with collectedAmount := g.collectedAmount + arg.amount }
    fromBalance := u.balance
    toBalance := u.balance + (u.balance - arg.amount) }

/-- The result of a successful call that skipped the balance branch. -/
def anonResult (s : DBState) (arg : DonateToGoalTxParams) (g : Goal) :
    DonateToGoalTxResult :=
  { donation := newDonation s arg
    user := none
    goal := { g with collectedAmount := g.collectedAmount + arg.amount }
    fromBalance := 0
    toBalance := 0 }

/-- Exhaustive case analysis of `donateToGoalTx`: every call lands in
exactly one of the five failure branches or one of the two success
branches, with the committed state spelled out. -/
theorem tx_cases (s : DBState) (arg : DonateToGoalTxParams) :
    (arg.amount ≤ 0 ∧ donateToGoalTx s arg = (s, .error .invalidAmount))
  ∨ (0 < arg.amount ∧ getGoal s arg.goalID = none ∧
      donateToGoalTx s arg = (s, .error .goalNotFound))
  ∨ (∃ g, 0 < arg.amount ∧ getGoal s arg.goalID = some g ∧ g.isActive = false ∧
      donateToGoalTx s arg = (s, .error .goalInactive))
  ∨ (∃ g, 0 < arg.amount ∧ getGoal s arg.goalID = some g ∧ g.isActive = true ∧
      arg.userID.valid = true ∧ getUser s arg.userID.int64 = none ∧
      donateToGoalTx s arg = (s, .error .userNotFound))
  ∨ (∃ g u, 0 < arg.amount ∧ getGoal s arg.goalID = some g ∧ g.isActive = true ∧
      arg.userID.valid = true ∧ getUser s arg.userID.int64 = some u ∧
      u.balance < arg.amount ∧
      donateToGoalTx s arg = (s, .error .insufficientBalance))
  ∨ (∃ g u, 0 < arg.amount ∧ getGoal s arg.goalID = some g ∧ g.isActive = true ∧
      arg.userID.valid = true ∧ getUser s arg.userID.int64 = some u ∧
      ¬ u.balance < arg.amount ∧
      donateToGoalTx s arg =
        (txSuccessStateAttr s arg (u.balance - arg.amount), .ok (attrResult s arg g u)))
  ∨ (∃ g, 0 < arg.amount ∧ getGoal s arg.goalID = some g ∧ g.isActive = true ∧
      arg.userID.valid = false ∧
      donateToGoalTx s arg = (txSuccessState s arg, .ok (anonResult s arg g))) := by
  by_cases ha : arg.amount ≤ 0
  · exact Or.inl ⟨ha, tx_invalidAmount s arg ha⟩
  · have ha' : 0 < arg.amount := by omega
    cases hg : getGoal s arg.goalID with
    | none =>
        exact Or.inr (Or.inl ⟨ha', rfl, tx_goalNotFound s arg ha' hg⟩)
    | some g =>
        cases hact : g.isActive with
        | false =>
            exact Or.inr (Or.inr (Or.inl
              ⟨g, ha', rfl, hact, tx_goalInactive s arg g ha' hg hact⟩))
        | true =>
            cases hv : arg.userID.valid with
            | false =>
                refine Or.inr (Or.inr (Or.inr (Or.inr (Or.inr (Or.inr
                  ⟨g, ha', rfl, hact, rfl, ?_⟩)))))
                exact tx_ok_anon s arg g ha' hg hact hv
            | true =>
                cases hu : getUser s arg.userID.int64 with
                | none =>
                    exact Or.inr (Or.inr (Or.inr (Or.inl
                      ⟨g, ha', rfl, hact, rfl, rfl, tx_userNotFound s arg g ha' hg hact hv hu⟩)))
                | some u =>
                    by_cases hb : u.balance < arg.amount
                    · exact Or.inr (Or.inr (Or.inr (Or.inr (Or.inl
                        ⟨g, u, ha', rfl, hact, rfl, rfl, hb,
                          tx_insufficientBalance s arg g u ha' hg hact hv hu hb⟩))))
                    · exact Or.inr (Or.inr (Or.inr (Or.inr (Or.inr (Or.inl
                        ⟨g, u, ha', rfl, hact, rfl, rfl, hb,
                          tx_ok_attr s arg g u ha' hg hact hv hu hb⟩)))))

/-! ### Concrete fixtures used by the witness and counterexample theorems -/

/-- A funded user (the $10,000 default balance of the test suite). -/
def wUser : User :=
  { id := 1, email := "ada@example.com", name := "Ada", balance := 1000000 }

/-- An active goal with nothing collected yet. -/
def wGoal : Goal :=
  { id := 7, title := "Shelter", description := "", targetAmount := 10000,
    collectedAmount := 0, isActive := true }

/-- A store holding one funded user and one active goal. -/
def wState : DBState :=
  { users := [wUser], goals := [wGoal], donations := [], nextDonationID := 1,
    clock := 0 }

/-! ### Claim theorems -/

/-- C3: whenever `DonateToGoalTx` returns an error (invalid amount, goal
not found, goal inactive, user not found, insufficient balance, or any
mutation failure), the committed state is exactly the state before the
call: every goal's collected amount, every user's balance and the set of
donation rows are unchanged — no partial effect or orphan donation row
survives the rollback. -/
theorem donateToGoalTx_error_rollback (s : DBState) (arg : DonateToGoalTxParams)
    (e : TxError) (h : (donateToGoalTx s arg).2 = .error e) :
    (donateToGoalTx s arg).1 = s ∧
    (donateToGoalTx s arg).1.goals = s.goals ∧
    (donateToGoalTx s arg).1.users = s.users ∧
    (donateToGoalTx s arg).1.donations = s.donations := by
  have hs := tx_error_frame s arg e h
  rw [hs]
  exact ⟨rfl, rfl, rfl, rfl⟩

/-- Witness for C3: a call rejected for a non-positive amount leaves the
store untouched. -/
theorem donateToGoalTx_error_rollback_witness :
    (donateToGoalTx wState
        { userID := { int64 := 1, valid := true }, goalID := 7, amount := 0,
          isAnonymous := false }).2 = .error .invalidAmount ∧
    (donateToGoalTx wState
        { userID := { int64 := 1, valid := true }, goalID := 7, amount := 0,
          isAnonymous := false }).1 = wState ∧
    (donateToGoalTx wState
        { userID := { int64 := 1, valid := true }, goalID := 7, amount := 0,
          isAnonymous := false }).1.goals = wState.goals ∧
    (donateToGoalTx wState
        { userID := { int64 := 1, valid := true }, goalID := 7, amount := 0,
          isAnonymous := false }).1.users = wState.users ∧
    (donateToGoalTx wState
        { userID := { int64 := 1, valid := true }, goalID := 7, amount := 0,
          isAnonymous := false }).1.donations = wState.donations := by
  refine ⟨by rfl, ?_⟩
  exact donateToGoalTx_error_rollback wState
    { userID := { int64 := 1, valid := true }, goalID := 7, amount := 0,
      isAnonymous := false } .invalidAmount (by rfl)

/-- C5: `DonateToGoalTx` fails with the typed failure exactly when its
precondition is violated, the checks running in order: `invalidAmount`
iff the amount is ≤ 0 (before any store access), `goalNotFound` iff the
goal does not exist, `goalInactive` iff it exists but is inactive, and —
for attributed calls — `userNotFound` iff the user does not exist and
`insufficientBalance` iff the balance is below the amount; no other
failure is possible and otherwise the call succeeds. -/
theorem donateToGoalTx_error_taxonomy (s : DBState) (arg : DonateToGoalTxParams) :
    ((donateToGoalTx s arg).2 = .error .invalidAmount ↔ arg.amount ≤ 0)
  ∧ ((donateToGoalTx s arg).2 = .error .goalNotFound ↔
      0 < arg.amount ∧ getGoal s arg.goalID = none)
  ∧ ((donateToGoalTx s arg).2 = .error .goalInactive ↔
      0 < arg.amount ∧ ∃ g, getGoal s arg.goalID = some g ∧ g.isActive = false)
  ∧ ((donateToGoalTx s arg).2 = .error .userNotFound ↔
      0 < arg.amount ∧ (∃ g, getGoal s arg.goalID = some g ∧ g.isActive = true) ∧
      arg.userID.valid = true ∧ getUser s arg.userID.int64 = none)
  ∧ ((donateToGoalTx s arg).2 = .error .insufficientBalance ↔
      0 < arg.amount ∧ (∃ g, getGoal s arg.goalID = some g ∧ g.isActive = true) ∧
      arg.userID.valid = true ∧
      ∃ u, getUser s arg.userID.int64 = some u ∧ u.balance < arg.amount)
  ∧ ((donateToGoalTx s arg).2 ≠ .error .storeError)
  ∧ ((∃ r, (donateToGoalTx s arg).2 = .ok r) ↔
      0 < arg.amount ∧ (∃ g, getGoal s arg.goalID = some g ∧ g.isActive = true) ∧
      (arg.userID.valid = true →
        ∃ u, getUser s arg.userID.int64 = some u ∧ arg.amount ≤ u.balance)) := by
  rcases tx_cases s arg with
      ⟨ha, heq⟩ | ⟨ha, hg, heq⟩ | ⟨g, ha, hg, hact, heq⟩ |
      ⟨g, ha, hg, hact, hv, hu, heq⟩ | ⟨g, u, ha, hg, hact, hv, hu, hb, heq⟩ |
      ⟨g, u, ha, hg, hact, hv, hu, hb, heq⟩ | ⟨g, ha, hg, hact, hv, heq⟩ <;>
    rw [heq] <;>
    refine ⟨?_, ?_, ?_, ?_, ?_, ?_, ?_⟩ <;>
    simp_all

/-! ### Shared consequences of `tx_cases` -/

/-- When all preconditions hold the transaction succeeds. -/
theorem tx_succeeds (s : DBState) (arg : DonateToGoalTxParams) (g : Goal)
    (ha : 0 < arg.amount) (hg : getGoal s arg.goalID = some g)
    (hact : g.isActive = true)
    (hu : arg.userID.valid = true →
      ∃ u, getUser s arg.userID.int64 = some u ∧ arg.amount ≤ u.balance) :
    ∃ r, (donateToGoalTx s arg).2 = .ok r := by
  rcases tx_cases s arg with
      ⟨ha', heq⟩ | ⟨ha', hg', heq⟩ | ⟨g', ha', hg', hact', heq⟩ |
      ⟨g', ha', hg', hact', hv', hu', heq⟩ |
      ⟨g', u', ha', hg', hact', hv', hu', hb', heq⟩ |
      ⟨g', u', ha', hg', hact', hv', hu', hb', heq⟩ |
      ⟨g', ha', hg', hact', hv', heq⟩
  case inl => omega
  case inr.inl => simp_all
  case inr.inr.inl => simp_all
  case inr.inr.inr.inl =>
      obtain ⟨u, hu1, hu2⟩ := hu hv'
      simp_all
  case inr.inr.inr.inr.inl =>
      obtain ⟨u, hu1, hu2⟩ := hu hv'
      rw [hu'] at hu1
      obtain rfl : u' = u := by simpa using hu1
      omega
  case inr.inr.inr.inr.inr.inl =>
      exact ⟨attrResult s arg g' u', by rw [heq]⟩
  case inr.inr.inr.inr.inr.inr =>
      exact ⟨anonResult s arg g', by rw [heq]⟩

/-- A successful call copies the caller's user reference and anonymity
flag into the created donation unchanged, and appends exactly that one
row to the donations table. -/
theorem tx_ok_fields (s : DBState) (arg : DonateToGoalTxParams)
    (r : DonateToGoalTxResult) (h : (donateToGoalTx s arg).2 = .ok r) :
    r.donation.userID = arg.userID ∧
    r.donation.isAnonymous = arg.isAnonymous ∧
    (donateToGoalTx s arg).1.donations = s.donations ++ [r.donation] := by
  rcases tx_cases s arg with
      ⟨ha, heq⟩ | ⟨ha, hg, heq⟩ | ⟨g, ha, hg, hact, heq⟩ |
      ⟨g, ha, hg, hact, hv, hu, heq⟩ | ⟨g, u, ha, hg, hact, hv, hu, hb, heq⟩ |
      ⟨g, u, ha, hg, hact, hv, hu, hb, heq⟩ | ⟨g, ha, hg, hact, hv, heq⟩ <;>
    rw [heq] at h ⊢ <;>
    simp_all [attrResult, anonResult, txSuccessState, txSuccessStateAttr, newDonation] <;>
    subst h <;> simp [newDonation]

/-- The user table is untouched when the call carries no user id. -/
theorem tx_users_frame (s : DBState) (arg : DonateToGoalTxParams)
    (hv : arg.userID.valid = false) :
    (donateToGoalTx s arg).1.users = s.users := by
  rcases tx_cases s arg with
      ⟨ha, heq⟩ | ⟨ha, hg, heq⟩ | ⟨g, ha, hg, hact, heq⟩ |
      ⟨g, ha, hg, hact, hv', hu, heq⟩ | ⟨g, u, ha, hg, hact, hv', hu, hb, heq⟩ |
      ⟨g, u, ha, hg, hact, hv', hu, hb, heq⟩ | ⟨g, ha, hg, hact, hv', heq⟩ <;>
    rw [heq] <;> simp_all [txSuccessState]

/-- Reading a goal after `collected_amount = collected_amount + $2` is
the original read with the addition applied to the matching row. -/
theorem getGoal_of_goals (s t : DBState) (gid amt qid : Int)
    (h : t.goals = s.goals.map (addGoalAmount gid amt)) :
    getGoal t qid = (getGoal s qid).map (addGoalAmount gid amt) := by
  simp only [getGoal, h]
  exact find?_map_pres _ _ (fun g => by rw [addGoalAmount_id]) _

/-- One transaction changes goal `gid`'s collected amount by exactly the
call's amount when it commits against `gid`, and not at all otherwise. -/
theorem tx_goal_step (s : DBState) (p : DonateToGoalTxParams) (gid : Int)
    (g : Goal) (hg : getGoal s gid = some g) :
    ∃ g1, getGoal (donateToGoalTx s p).1 gid = some g1 ∧
      g1.collectedAmount = g.collectedAmount +
        (if txOk (donateToGoalTx s p).2 && p.goalID == gid then p.amount else 0) := by
  have hgid : g.id = gid := by
    have hg' : s.goals.find? (fun x => x.id == gid) = some g := hg
    have h := List.find?_some hg'
    simpa using h
  rcases tx_cases s p with
      ⟨ha, heq⟩ | ⟨ha, hgp, heq⟩ | ⟨g', ha, hgp, hact, heq⟩ |
      ⟨g', ha, hgp, hact, hv, hu, heq⟩ | ⟨g', u, ha, hgp, hact, hv, hu, hb, heq⟩ |
      ⟨g', u, ha, hgp, hact, hv, hu, hb, heq⟩ | ⟨g', ha, hgp, hact, hv, heq⟩
  case inl =>
      exact ⟨g, by rw [heq]; exact hg, by rw [heq]; simp [txOk]⟩
  case inr.inl =>
      exact ⟨g, by rw [heq]; exact hg, by rw [heq]; simp [txOk]⟩
  case inr.inr.inl =>
      exact ⟨g, by rw [heq]; exact hg, by rw [heq]; simp [txOk]⟩
  case inr.inr.inr.inl =>
      exact ⟨g, by rw [heq]; exact hg, by rw [heq]; simp [txOk]⟩
  case inr.inr.inr.inr.inl =>
      exact ⟨g, by rw [heq]; exact hg, by rw [heq]; simp [txOk]⟩
  case inr.inr.inr.inr.inr.inl =>
      refine ⟨addGoalAmount p.goalID p.amount g, ?_, ?_⟩
      · rw [heq]
        rw [getGoal_of_goals s _ p.goalID p.amount gid rfl, hg]
        rfl
      · rw [heq]
        by_cases hpg : p.goalID = gid
        · simp [addGoalAmount, txOk, hgid, hpg]
        · have hne : (g.id == p.goalID) = false := by
            rw [hgid]
            exact beq_eq_false_iff_ne.mpr (by omega)
          simp [addGoalAmount, txOk, hne, hpg]
  case inr.inr.inr.inr.inr.inr =>
      refine ⟨addGoalAmount p.goalID p.amount g, ?_, ?_⟩
      · rw [heq]
        rw [getGoal_of_goals s _ p.goalID p.amount gid rfl, hg]
        rfl
      · rw [heq]
        by_cases hpg : p.goalID = gid
        · simp [addGoalAmount, txOk, hgid, hpg]
        · have hne : (g.id == p.goalID) = false := by
            rw [hgid]
            exact beq_eq_false_iff_ne.mpr (by omega)
          simp [addGoalAmount, txOk, hne, hpg]

/-- Conservation along any sequence of calls: the goal's collected amount
grows by exactly the sum of the amounts of the successfully committed
calls against it. -/
theorem donateMany_conservation (ps : List DonateToGoalTxParams) (s : DBState)
    (gid : Int) (g : Goal) (hg : getGoal s gid = some g) :
    ∃ g', getGoal (donateMany s ps) gid = some g' ∧
      g'.collectedAmount = g.collectedAmount + committedSum s ps gid := by
  induction ps generalizing s g with
  | nil => exact ⟨g, hg, by simp [donateMany, committedSum]⟩
  | cons p rest ih =>
      obtain ⟨g1, hg1, hstep⟩ := tx_goal_step s p gid g hg
      obtain ⟨g', hg', hsum⟩ := ih (donateToGoalTx s p).1 g1 hg1
      refine ⟨g', by rw [donateMany]; exact hg', ?_⟩
      show g'.collectedAmount = g.collectedAmount +
        ((if txOk (donateToGoalTx s p).2 && p.goalID == gid then p.amount else 0) +
          committedSum (donateToGoalTx s p).1 rest gid)
      omega

/-- More fixtures: arguments used by witnesses and counterexamples. -/
def wAttrArg : DonateToGoalTxParams :=
  { userID := { int64 := 1, valid := true }, goalID := 7, amount := 2500,
    isAnonymous := false }

/-- An anonymous call: no user id, anonymity flag set. -/
def wAnonArg : DonateToGoalTxParams :=
  { userID := { int64 := 0, valid := false }, goalID := 7, amount := 2500,
    isAnonymous := true }

/-- A mixed call: anonymity flag set but a user id supplied (what
`POST /donations` sends for a logged-in user asking for anonymity). -/
def wMixArg : DonateToGoalTxParams :=
  { userID := { int64 := 1, valid := true }, goalID := 7, amount := 2500,
    isAnonymous := true }

/-- C1: for every goal and every sequence of donation calls, the goal's
collected amount after the run equals its initial collected amount plus
the sum of the amounts of the calls that committed successfully against
it (the conservation invariant maintained by `DonateToGoalTx`). -/
theorem goal_collected_conservation (s : DBState) (ps : List DonateToGoalTxParams)
    (gid : Int) (g : Goal) (hg : getGoal s gid = some g) :
    ∃ g', getGoal (donateMany s ps) gid = some g' ∧
      g'.collectedAmount = g.collectedAmount + committedSum s ps gid :=
  donateMany_conservation ps s gid g hg

/-- Witness for C1: two successful donations (100 and 200) and one
rejected donation (amount 0) leave the goal's collected amount at the
initial 0 plus the committed 300. -/
theorem goal_collected_conservation_witness :
    getGoal wState 7 = some wGoal ∧
    committedSum wState
      [{ userID := { int64 := 0, valid := false }, goalID := 7, amount := 100,
         isAnonymous := true },
       { userID := { int64 := 1, valid := true }, goalID := 7, amount := 0,
         isAnonymous := false },
       { userID := { int64 := 0, valid := false }, goalID := 7, amount := 200,
         isAnonymous := true }] 7 = 300 ∧
    (∃ g', getGoal (donateMany wState
      [{ userID := { int64 := 0, valid := false }, goalID := 7, amount := 100,
         isAnonymous := true },
       { userID := { int64 := 1, valid := true }, goalID := 7, amount := 0,
         isAnonymous := false },
       { userID := { int64 := 0, valid := false }, goalID := 7, amount := 200,
         isAnonymous := true }]) 7 = some g' ∧
      g'.collectedAmount = wGoal.collectedAmount + committedSum wState
      [{ userID := { int64 := 0, valid := false }, goalID := 7, amount := 100,
         isAnonymous := true },
       { userID := { int64 := 1, valid := true }, goalID := 7, amount := 0,
         isAnonymous := false },
       { userID := { int64 := 0, valid := false }, goalID := 7, amount := 200,
         isAnonymous := true }] 7) := by
  refine ⟨rfl, by decide, ?_⟩
  exact goal_collected_conservation wState _ 7 wGoal rfl

/-- C2 (code-bug evaluation): a successful attributed donation of 2500
by a user with balance 1000000 leaves the stored balance at 1997500, not
the 997500 the specification requires: the code computes
`newBalance = balance − amount` but hands it to a SQL statement that sets
`balance = balance + $2`, so the stored balance becomes `2·b − a`. -/
theorem attributed_debit_failing_input :
    txOk (donateToGoalTx wState wAttrArg).2 = true ∧
    getUser wState 1 = some wUser ∧
    wUser.balance = 1000000 ∧ wAttrArg.amount = 2500 ∧
    getUser (donateToGoalTx wState wAttrArg).1 1 =
      some { wUser with balance := 1997500 } ∧
    (1997500 : Int) ≠ 1000000 - 2500 := by
  exact ⟨rfl, rfl, rfl, rfl, rfl, by decide⟩

/-- C4 counterexample: `DonateToGoalTx` happily creates a donation whose
user reference is present while `isAnonymous = true` — the claimed
pairing invariant `user reference present ⇔ isAnonymous = false` fails
for this row. -/
theorem donation_pairing_counterexample :
    txOk (donateToGoalTx wState wMixArg).2 = true ∧
    (donateToGoalTx wState wMixArg).1.donations =
      [{ id := 1, userID := { int64 := 1, valid := true }, goalID := 7,
         amount := 2500, isAnonymous := true, createdAt := 0 }] ∧
    ¬ (∀ d ∈ (donateToGoalTx wState wMixArg).1.donations,
        (d.userID.valid = true ↔ d.isAnonymous = false)) := by
  refine ⟨rfl, rfl, ?_⟩
  decide

/-- C4 amended: the engine does not validate the pairing at all — every
donation it creates carries exactly the caller-supplied user reference
and anonymity flag (so a present user may coexist with
`isAnonymous = true`), and exactly one row is appended per successful
call. -/
theorem donation_pairing_amended (s : DBState) (arg : DonateToGoalTxParams)
    (r : DonateToGoalTxResult) (h : (donateToGoalTx s arg).2 = .ok r) :
    r.donation.userID = arg.userID ∧
    r.donation.isAnonymous = arg.isAnonymous ∧
    (donateToGoalTx s arg).1.donations = s.donations ++ [r.donation] :=
  tx_ok_fields s arg r h

/-- Witness for C4 amended: the anonymous fixture call. -/
theorem donation_pairing_amended_witness :
    (donateToGoalTx wState wAnonArg).2 = .ok
      { donation := { id := 1, userID := { int64 := 0, valid := false },
                      goalID := 7, amount := 2500, isAnonymous := true,
                      createdAt := 0 }
        user := none
        goal := { id := 7, title := "Shelter", description := "",
                  targetAmount := 10000, collectedAmount := 2500,
                  isActive := true }
        fromBalance := 0
        toBalance := 0 } ∧
    ({ id := 1, userID := { int64 := 0, valid := false }, goalID := 7,
       amount := 2500, isAnonymous := true, createdAt := 0 } : Donation).userID
        = wAnonArg.userID ∧
    ({ id := 1, userID := { int64 := 0, valid := false }, goalID := 7,
       amount := 2500, isAnonymous := true, createdAt := 0 } : Donation).isAnonymous
        = wAnonArg.isAnonymous ∧
    (donateToGoalTx wState wAnonArg).1.donations = wState.donations ++
      [{ id := 1, userID := { int64 := 0, valid := false }, goalID := 7,
         amount := 2500, isAnonymous := true, createdAt := 0 }] := by
  refine ⟨by rfl, ?_⟩
  have h := donation_pairing_amended wState wAnonArg
    { donation := { id := 1, userID := { int64 := 0, valid := false },
                    goalID := 7, amount := 2500, isAnonymous := true,
                    createdAt := 0 }
      user := none
      goal := { id := 7, title := "Shelter", description := "",
                targetAmount := 10000, collectedAmount := 2500,
                isActive := true }
      fromBalance := 0
      toBalance := 0 } (by rfl)
  exact h

/-- C6 counterexample: a call with the anonymity flag set to true that
also supplies a user id does change that user's balance — the debit is
keyed on the presence of the user id, not on the anonymity flag. -/
theorem anonymous_flag_balance_counterexample :
    wMixArg.isAnonymous = true ∧
    txOk (donateToGoalTx wState wMixArg).2 = true ∧
    getUser wState 1 = some wUser ∧
    getUser (donateToGoalTx wState wMixArg).1 1 ≠ some wUser := by
  refine ⟨rfl, rfl, rfl, ?_⟩
  decide

/-- C6 amended: a call whose user reference is absent never changes any
user row, whatever the anonymity flag; it is the absent user id (which
the anonymous endpoint always sends), not the flag, that keeps balances
untouched. -/
theorem no_user_reference_no_balance_change (s : DBState)
    (arg : DonateToGoalTxParams) (hv : arg.userID.valid = false) :
    (donateToGoalTx s arg).1.users = s.users :=
  tx_users_frame s arg hv

/-- Witness for C6 amended: the anonymous fixture call. -/
theorem no_user_reference_no_balance_change_witness :
    wAnonArg.userID.valid = false ∧
    (donateToGoalTx wState wAnonArg).1.users = wState.users :=
  ⟨rfl, no_user_reference_no_balance_change wState wAnonArg rfl⟩

/-- When every call in a sequence targeting goal `gid` commits, the
committed sum is the plain sum of the amounts. -/
theorem committedSum_of_allSucceed (gid : Int) (ps : List DonateToGoalTxParams) :
    ∀ s : DBState, (∀ p ∈ ps, p.goalID = gid) → allSucceed s ps = true →
      committedSum s ps gid = (ps.map (fun p => p.amount)).sum := by
  induction ps with
  | nil => intro s _ _; simp [committedSum]
  | cons p rest ih =>
      intro s hall hs
      have hs' : (txOk (donateToGoalTx s p).2 &&
          allSucceed (donateToGoalTx s p).1 rest) = true := hs
      rw [Bool.and_eq_true] at hs'
      obtain ⟨hok, hrest⟩ := hs'
      have hpg : p.goalID = gid := hall p (by simp)
      show (if txOk (donateToGoalTx s p).2 && p.goalID == gid then p.amount else 0) +
          committedSum (donateToGoalTx s p).1 rest gid = _
      rw [ih (donateToGoalTx s p).1
        (fun q hq => hall q (List.mem_cons_of_mem _ hq)) hrest]
      simp [hok, hpg]

/-- C7: N donations against one goal, all of which commit, add exactly
the sum of their amounts to the goal's collected amount, under ANY
serialization order of the transactions (the `collected_amount =
collected_amount + $2` increment commutes, so no update is lost and each
commit is applied exactly once). -/
theorem concurrent_donations_sum (s : DBState) (gid : Int) (g : Goal)
    (ps ps' : List DonateToGoalTxParams)
    (hg : getGoal s gid = some g)
    (hall : ∀ p ∈ ps, p.goalID = gid)
    (hperm : ps.Perm ps')
    (hsucc : allSucceed s ps' = true) :
    ∃ g', getGoal (donateMany s ps') gid = some g' ∧
      g'.collectedAmount = g.collectedAmount + (ps.map (fun p => p.amount)).sum := by
  obtain ⟨g', h1, h2⟩ := donateMany_conservation ps' s gid g hg
  refine ⟨g', h1, ?_⟩
  rw [h2, committedSum_of_allSucceed gid ps' s
    (fun p hp => hall p (hperm.mem_iff.mpr hp)) hsucc]
  have hsum : (ps.map (fun p => p.amount)).Perm (ps'.map (fun p => p.amount)) :=
    hperm.map _
  rw [hsum.sum_eq]

/-- Witness for C7: donations of 100 and 200 run in swapped order still
collect 300. -/
theorem concurrent_donations_sum_witness :
    getGoal wState 7 = some wGoal ∧
    ([({ userID := { int64 := 0, valid := false }, goalID := 7, amount := 100,
         isAnonymous := true } : DonateToGoalTxParams),
      { userID := { int64 := 0, valid := false }, goalID := 7, amount := 200,
        isAnonymous := true }].Perm
      [{ userID := { int64 := 0, valid := false }, goalID := 7, amount := 200,
         isAnonymous := true },
       { userID := { int64 := 0, valid := false }, goalID := 7, amount := 100,
         isAnonymous := true }]) ∧
    allSucceed wState
      [{ userID := { int64 := 0, valid := false }, goalID := 7, amount := 200,
         isAnonymous := true },
       { userID := { int64 := 0, valid := false }, goalID := 7, amount := 100,
         isAnonymous := true }] = true ∧
    (∃ g', getGoal (donateMany wState
        [{ userID := { int64 := 0, valid := false }, goalID := 7, amount := 200,
           isAnonymous := true },
         { userID := { int64 := 0, valid := false }, goalID := 7, amount := 100,
           isAnonymous := true }]) 7 = some g' ∧
      g'.collectedAmount = wGoal.collectedAmount +
        ([({ userID := { int64 := 0, valid := false }, goalID := 7, amount := 100,
             isAnonymous := true } : DonateToGoalTxParams),
          { userID := { int64 := 0, valid := false }, goalID := 7, amount := 200,
            isAnonymous := true }].map (fun p => p.amount)).sum) := by
  refine ⟨rfl, by decide, by rfl, ?_⟩
  exact concurrent_donations_sum wState 7 wGoal _ _ rfl (by decide) (by decide) (by rfl)

/-- C8: the engine imposes no maximum-amount ceiling — any positive
amount against an existing active goal (with, for attributed calls, a
sufficiently funded user) succeeds, whatever its magnitude; the
configured per-type maxima are enforced only by the API handlers, which
reject over-limit requests before the engine is invoked, leaving the
store untouched. -/
theorem engine_no_amount_ceiling (s : DBState) (arg : DonateToGoalTxParams)
    (g : Goal) (cfg : Config) (uid : Int) (req : CreateDonationRequest)
    (areq : CreateAnonymousDonationRequest)
    (ha : 0 < arg.amount) (hg : getGoal s arg.goalID = some g)
    (hact : g.isActive = true)
    (hu : arg.userID.valid = true →
      ∃ u, getUser s arg.userID.int64 = some u ∧ arg.amount ≤ u.balance)
    (hbind : bindCreateDonation req = true)
    (hover : cfg.maxRegisteredDonation < req.amount)
    (habind : bindCreateAnonymousDonation areq = true)
    (haover : cfg.maxAnonymousDonation < areq.amount) :
    (∃ r, (donateToGoalTx s arg).2 = .ok r) ∧
    createDonationHandler cfg uid req s = (s, .limitExceeded cfg.maxRegisteredDonation) ∧
    createAnonymousDonationHandler cfg areq s =
      (s, .limitExceeded cfg.maxAnonymousDonation) := by
  refine ⟨tx_succeeds s arg g ha hg hact hu, ?_, ?_⟩
  · rw [createDonationHandler]
    simp [hbind, hover]
  · rw [createAnonymousDonationHandler]
    simp [habind, haover]

/-- The donation-limit configuration used by the witnesses. -/
def wCfg : Config :=
  { maxAnonymousDonation := 500000, maxRegisteredDonation := 5000000 }

/-- Witness for C8: an anonymous donation of 10¹⁵ cents succeeds in the
engine, while requests of 6000000 / 600000 cents are turned away by the
handlers under limits of 5000000 / 500000. -/
theorem engine_no_amount_ceiling_witness :
    (0 : Int) < 1000000000000000 ∧
    getGoal wState 7 = some wGoal ∧
    wGoal.isActive = true ∧
    bindCreateDonation { goalID := 7, amount := 6000000, isAnonymous := false } = true ∧
    (5000000 : Int) < 6000000 ∧
    bindCreateAnonymousDonation { goalID := 7, amount := 600000 } = true ∧
    (500000 : Int) < 600000 ∧
    ((∃ r, (donateToGoalTx wState
        { userID := { int64 := 0, valid := false }, goalID := 7,
          amount := 1000000000000000, isAnonymous := true }).2 = .ok r) ∧
      createDonationHandler wCfg 1
          { goalID := 7, amount := 6000000, isAnonymous := false } wState =
        (wState, .limitExceeded wCfg.maxRegisteredDonation) ∧
      createAnonymousDonationHandler wCfg
          { goalID := 7, amount := 600000 } wState =
        (wState, .limitExceeded wCfg.maxAnonymousDonation)) := by
  refine ⟨by decide, rfl, rfl, rfl, by decide, rfl, by decide, ?_⟩
  exact engine_no_amount_ceiling wState
    { userID := { int64 := 0, valid := false }, goalID := 7,
      amount := 1000000000000000, isAnonymous := true }
    wGoal wCfg 1
    { goalID := 7, amount := 6000000, isAnonymous := false }
    { goalID := 7, amount := 600000 }
    (by decide) rfl rfl (fun h => nomatch h) rfl (by decide) rfl (by decide)

/-- Inverting a 201 outcome of `POST /donations`: it can only come from a
successful transaction on `regParams`. -/
theorem createDonationHandler_created (cfg : Config) (uid : Int)
    (req : CreateDonationRequest) (s : DBState) (resp : DonationResponse)
    (h : (createDonationHandler cfg uid req s).2 = .created resp) :
    ∃ r, (donateToGoalTx s (regParams uid req)).2 = .ok r ∧
      createDonationHandler cfg uid req s =
        ((donateToGoalTx s (regParams uid req)).1,
          .created (newDonationResponse r.donation)) ∧
      resp = newDonationResponse r.donation := by
  unfold createDonationHandler at h ⊢
  cases hbv : bindCreateDonation req with
  | false => rw [hbv] at h; simp at h
  | true =>
      simp only [hbv, Bool.not_true, Bool.false_eq_true, if_false] at h ⊢
      by_cases hl : cfg.maxRegisteredDonation < req.amount
      · simp [hl] at h
      · simp only [hl, Bool.not_true, Bool.false_eq_true, if_false, if_neg] at h ⊢
        cases hgg : getGoal s req.goalID with
        | none => rw [hgg] at h; simp at h
        | some g0 =>
            rw [hgg] at h
            cases hout : (donateToGoalTx s (regParams uid req)).2 with
            | error e =>
                rw [hout] at h
                have h' : HandlerOutcome.internalError = .created resp := h
                simp at h'
            | ok r =>
                rw [hout] at h
                have h' : HandlerOutcome.created (newDonationResponse r.donation)
                    = .created resp := h
                injection h' with hh
                exact ⟨r, rfl, rfl, hh.symm⟩

/-- Inverting a 201 outcome of `POST /donations/anonymous`. -/
theorem createAnonymousDonationHandler_created (cfg : Config)
    (req : CreateAnonymousDonationRequest) (s : DBState) (resp : DonationResponse)
    (h : (createAnonymousDonationHandler cfg req s).2 = .created resp) :
    ∃ r, (donateToGoalTx s (anonParams req)).2 = .ok r ∧
      createAnonymousDonationHandler cfg req s =
        ((donateToGoalTx s (anonParams req)).1,
          .created (newDonationResponse r.donation)) ∧
      resp = newDonationResponse r.donation := by
  unfold createAnonymousDonationHandler at h ⊢
  cases hbv : bindCreateAnonymousDonation req with
  | false => rw [hbv] at h; simp at h
  | true =>
      simp only [hbv, Bool.not_true, Bool.false_eq_true, if_false] at h ⊢
      by_cases hl : cfg.maxAnonymousDonation < req.amount
      · simp [hl] at h
      · simp only [hl, Bool.not_true, Bool.false_eq_true, if_false, if_neg] at h ⊢
        cases hgg : getGoal s req.goalID with
        | none => rw [hgg] at h; simp at h
        | some g0 =>
            rw [hgg] at h
            cases hout : (donateToGoalTx s (anonParams req)).2 with
            | error e =>
                rw [hout] at h
                have h' : HandlerOutcome.internalError = .created resp := h
                simp at h'
            | ok r =>
                rw [hout] at h
                have h' : HandlerOutcome.created (newDonationResponse r.donation)
                    = .created resp := h
                injection h' with hh
                exact ⟨r, rfl, rfl, hh.symm⟩

/-- C9: every donation created through the authenticated `POST /donations`
endpoint carries a present user reference equal to the token's user id
(the request body carries no user id field at all), and every donation
created through `POST /donations/anonymous` carries an absent user
reference and `isAnonymous = true`; in both cases the rendered response
is the view of exactly that row. -/
theorem endpoint_attribution (cfg : Config) (uid : Int)
    (req : CreateDonationRequest) (s : DBState) (resp : DonationResponse)
    (cfg2 : Config) (req2 : CreateAnonymousDonationRequest) (s2 : DBState)
    (resp2 : DonationResponse)
    (h : (createDonationHandler cfg uid req s).2 = .created resp)
    (h2 : (createAnonymousDonationHandler cfg2 req2 s2).2 = .created resp2) :
    (∃ d, (createDonationHandler cfg uid req s).1.donations = s.donations ++ [d] ∧
      d.userID = { int64 := uid, valid := true } ∧
      resp = newDonationResponse d) ∧
    (∃ d, (createAnonymousDonationHandler cfg2 req2 s2).1.donations =
        s2.donations ++ [d] ∧
      d.userID.valid = false ∧ d.isAnonymous = true ∧
      resp2 = newDonationResponse d) := by
  constructor
  · obtain ⟨r, hok, heq, hresp⟩ := createDonationHandler_created cfg uid req s resp h
    obtain ⟨hu, _, hdon⟩ := tx_ok_fields s (regParams uid req) r hok
    refine ⟨r.donation, ?_, ?_, hresp⟩
    · rw [heq]
      exact hdon
    · rw [hu]
      rfl
  · obtain ⟨r, hok, heq, hresp⟩ :=
      createAnonymousDonationHandler_created cfg2 req2 s2 resp2 h2
    obtain ⟨hu, hanon, hdon⟩ := tx_ok_fields s2 (anonParams req2) r hok
    refine ⟨r.donation, ?_, ?_, ?_, hresp⟩
    · rw [heq]
      exact hdon
    · rw [hu]
      rfl
    · rw [hanon]
      rfl

/-- Witness for C9: a logged-in donation of 2500 by user 1 and an
anonymous donation of 300, both against the fixture goal. -/
theorem endpoint_attribution_witness :
    (createDonationHandler wCfg 1
        { goalID := 7, amount := 2500, isAnonymous := false } wState).2 =
      .created { id := 1, userID := some 1, goalID := 7, amount := 2500,
                 isAnonymous := false, createdAt := 0 } ∧
    (createAnonymousDonationHandler wCfg
        { goalID := 7, amount := 300 } wState).2 =
      .created { id := 1, userID := none, goalID := 7, amount := 300,
                 isAnonymous := true, createdAt := 0 } ∧
    ((∃ d, (createDonationHandler wCfg 1
          { goalID := 7, amount := 2500, isAnonymous := false } wState).1.donations =
            wState.donations ++ [d] ∧
        d.userID = { int64 := 1, valid := true } ∧
        ({ id := 1, userID := some 1, goalID := 7, amount := 2500,
           isAnonymous := false, createdAt := 0 } : DonationResponse) =
          newDonationResponse d) ∧
      (∃ d, (createAnonymousDonationHandler wCfg
          { goalID := 7, amount := 300 } wState).1.donations =
            wState.donations ++ [d] ∧
        d.userID.valid = false ∧ d.isAnonymous = true ∧
        ({ id := 1, userID := none, goalID := 7, amount := 300,
           isAnonymous := true, createdAt := 0 } : DonationResponse) =
          newDonationResponse d)) := by
  refine ⟨by rfl, by rfl, ?_⟩
  exact endpoint_attribution wCfg 1
    { goalID := 7, amount := 2500, isAnonymous := false } wState
    { id := 1, userID := some 1, goalID := 7, amount := 2500,
      isAnonymous := false, createdAt := 0 }
    wCfg { goalID := 7, amount := 300 } wState
    { id := 1, userID := none, goalID := 7, amount := 300,
      isAnonymous := true, createdAt := 0 }
    (by rfl) (by rfl)

/-- C10: the public JSON view of a donation includes a `user_id` field
exactly when the stored row has a present user reference and
`isAnonymous = false`; and two donations that differ only in their stored
user reference but are both anonymous render identically — the stored
user id never flows into the output of an anonymous donation. -/
theorem anonymous_response_hides_user (d e : Donation) (v : PgInt8)
    (he : e.isAnonymous = true) :
    ((newDonationResponse d).userID ≠ none ↔
      d.userID.valid = true ∧ d.isAnonymous = false) ∧
    newDonationResponse { e with userID := v } = newDonationResponse e := by
  constructor
  · cases hval : d.userID.valid <;> cases han : d.isAnonymous <;>
      simp [newDonationResponse, hval, han]
  · simp [newDonationResponse, he]

/-- Witness for C10: an attributed row renders its user id; the mixed
anonymous row with user id 1 renders the same as with user id 42. -/
theorem anonymous_response_hides_user_witness :
    ({ id := 2, userID := { int64 := 1, valid := true }, goalID := 7,
       amount := 2500, isAnonymous := true, createdAt := 0 } : Donation).isAnonymous
        = true ∧
    (((newDonationResponse
        { id := 1, userID := { int64 := 1, valid := true }, goalID := 7,
          amount := 2500, isAnonymous := false, createdAt := 0 }).userID ≠ none ↔
      ({ id := 1, userID := { int64 := 1, valid := true }, goalID := 7,
         amount := 2500, isAnonymous := false, createdAt := 0 } : Donation).userID.valid
          = true ∧
      ({ id := 1, userID := { int64 := 1, valid := true }, goalID := 7,
         amount := 2500, isAnonymous := false, createdAt := 0 } : Donation).isAnonymous
          = false) ∧
    newDonationResponse
      { ({ id := 2, userID := { int64 := 1, valid := true }, goalID := 7,
           amount := 2500, isAnonymous := true, createdAt := 0 } : Donation) with
        userID := { int64 := 42, valid := true } } =
      newDonationResponse
        { id := 2, userID := { int64 := 1, valid := true }, goalID := 7,
          amount := 2500, isAnonymous := true, createdAt := 0 }) := by
  refine ⟨rfl, ?_⟩
  exact anonymous_response_hides_user
    { id := 1, userID := { int64 := 1, valid := true }, goalID := 7,
      amount := 2500, isAnonymous := false, createdAt := 0 }
    { id := 2, userID := { int64 := 1, valid := true }, goalID := 7,
      amount := 2500, isAnonymous := true, createdAt := 0 }
    { int64 := 42, valid := true } rfl

end Charity
